import Mathlib

/-!
Shallow embedding of the Durable Object handlers of the
cloudflare-do-playground repository, together with proofs of the
spec's testable properties.

Each handler (Batcher, RateLimiter, ChatRoom, Session) is embedded as a
pure state-transition function translated from its TypeScript source in
`packages/durable-objects/src`.  The platform substrate the handlers run
on (the Durable Storage Engine's `list` ordering, the single-slot Alarm
Scheduler, and JavaScript's `parseInt`) is not part of the repository
source; those pieces are modelled from the spec (sections 4.2 and 4.3)
and are marked as such in their doc comments.
-/

/-- Lexicographic order on character lists by code point, the order the
platform storage engine uses for ASCII keys. -/
def charListLt : List Char → List Char → Bool
  | _, [] => false
  | [], _ :: _ => true
  | a :: as, b :: bs =>
    if a.toNat < b.toNat then true
    else if a = b then charListLt as bs
    else false

/-- Lexicographic (code-point) order on strings, as JavaScript and the
storage engine compare keys.  For ASCII digit keys this coincides with
UTF-8 byte order. -/
def strLt (s t : String) : Bool := charListLt s.data t.data

/-- Upsert into an association list of storage records: `put(key, value)`
replaces the value of an existing key in place, otherwise appends. -/
def putEntry (k v : String) : List (String × String) → List (String × String)
  | [] => [(k, v)]
  | (k', v') :: rest =>
    if k' = k then (k, v) :: rest else (k', v') :: putEntry k v rest

/-- Insert one record into a key-sorted record list, keeping it sorted. -/
def insertSorted (p : String × String) :
    List (String × String) → List (String × String)
  | [] => [p]
  | q :: rest =>
    if strLt p.1 q.1 then p :: q :: rest else q :: insertSorted p rest

/-- Sort storage records by key in ascending lexicographic order. -/
def sortEntries : List (String × String) → List (String × String)
  | [] => []
  | p :: rest => insertSorted p (sortEntries rest)

/-- Modelled from the spec: the Durable Storage Engine's
`list(opts: \x7breverse?, limit?\x7d)` (spec section 4.2) is platform code, not
repository source.  Keys are listed in ascending lexicographic order by
default, `reverse` flips the order, `limit` truncates the result. -/
def listStorage (entries : List (String × String)) (rev : Bool)
    (limit : Option Nat) : List (String × String) :=
  let s := sortEntries entries
  let s := if rev then s.reverse else s
  match limit with
  | none => s
  | some n => s.take n

/-- Modelled from the spec: JavaScript's `parseInt`, applied by the
Batcher constructor to the decimal sequence keys it stores.  The result
is the value of the longest leading run of decimal digits; `none` models
the `NaN` result when no leading digit exists. -/
def parseIntJS (s : String) : Option Nat :=
  let ds := s.data.takeWhile Char.isDigit
  if ds.isEmpty then none
  else some (ds.foldl (fun n c => 10 * n + (c.toNat - 48)) 0)

/-- Count of pending alarms in the single-slot alarm model: the Alarm
Scheduler (spec section 4.3) holds at most one due time per identity. -/
def alarmCount : Option Nat → Nat
  | none => 0
  | some _ => 1

namespace Batcher

/-- Seconds in the Batcher's alarm window (`const SECONDS = 10`). -/
def SECONDS : Nat := 10

/-- In-memory and durable state of one Batcher identity: the in-memory
`count` field, the storage records, and the pending alarm slot. -/
structure State where
  count : Nat
  entries : List (String × String)
  alarm : Option Nat
  deriving Repr, DecidableEq

/-- Modelled from the spec: JSON request shaping is out of scope of the
runtime spec (section 1), so a Batcher request carries its raw body text
plus the bit the handler extracts from it — whether
`JSON.parse(body).debounce === true` (false when the body is not JSON or
has no such field). -/
structure Request where
  body : String
  debounce : Bool
  deriving Repr, DecidableEq

/-- JSON fields of the Batcher's fetch response. -/
structure Resp where
  queued : Nat
  debounce : Bool
  deriving Repr, DecidableEq

/-- Setup barrier of the Batcher constructor: `list(\x7breverse: true,
limit: 1\x7d)` over storage and `parseInt` of the first key, 0 on an empty
namespace.  `none` models `parseInt` returning `NaN`. -/
def init (entries : List (String × String)) (alarm : Option Nat) :
    Option State :=
  let vals := listStorage entries true (some 1)
  match vals with
  | [] => some { count := 0, entries := entries, alarm := alarm }
  | (k, _) :: _ =>
    match parseIntJS k with
    | none => none
    | some n => some { count := n, entries := entries, alarm := alarm }

/-- Batcher.fetch: increment the count, set the alarm (unconditionally
`now + 10s` when debouncing, only if absent when batching), and store the
body under the count's decimal string key. -/
def fetch (now : Nat) (req : Request) (st : State) : State × Resp :=
  let count := st.count + 1
  let alarm :=
    if req.debounce then some (now + 1000 * SECONDS)
    else
      match st.alarm with
      | none => some (now + 1000 * SECONDS)
      | some t => some t
  let entries := putEntry (toString count) req.body st.entries
  ({ count := count, entries := entries, alarm := alarm },
   { queued := count, debounce := req.debounce })

/-- Batcher.alarm: list every stored value in ascending key order (the
processed batch items), then deleteAll and reset the count.  The handler
itself does not touch the alarm slot; the scheduler clears it before the
callback runs. -/
def alarmHandler (st : State) : State × List String :=
  let items := (listStorage st.entries false none).map Prod.snd
  ({ count := 0, entries := [], alarm := st.alarm }, items)

/-- A unit of work admitted to the Batcher's gate: an external fetch or
an alarm firing. -/
inductive Op where
  | fetch (now : Nat) (req : Request)
  | fire
  deriving Repr, DecidableEq

/-- One unit of work applied to the state.  On `fire` the scheduler
clears the alarm slot before the callback runs (spec section 4.3). -/
def step (op : Op) (st : State) : State :=
  match op with
  | .fetch now req => (fetch now req st).1
  | .fire => (alarmHandler { st with alarm := none }).1

/-- A serialized sequence of units of work for one Batcher identity. -/
def run (ops : List Op) (st : State) : State :=
  ops.foldl (fun s o => step o s) st

/-- Modelled from the spec: the Alarm Scheduler's clock (section 4.3) is
platform code.  Before the work scheduled at `deadline` is admitted, an
alarm whose due time has been reached fires first; the scheduler clears
the slot before the callback runs.  `Batcher.alarmHandler` never re-sets
the alarm, so a single check suffices.  Firings are recorded as
(due time, processed batch items). -/
def fireIfDue (deadline : Nat) (st : State)
    (acc : List (Nat × List String)) : State × List (Nat × List String) :=
  match st.alarm with
  | some t =>
    if t ≤ deadline then
      let fired := alarmHandler { st with alarm := none }
      (fired.1, acc ++ [(t, fired.2)])
    else (st, acc)
  | none => (st, acc)

/-- Timed execution of a sequence of external arrivals `(time, request)`
in increasing time order: any due alarm fires before an arrival is
served, and a still-pending alarm fires once the arrivals stop (the
clock eventually reaches it).  Returns the final state and the list of
alarm firings. -/
def runTimed : List (Nat × Request) → State → List (Nat × List String) →
    State × List (Nat × List String)
  | [], st, acc => fireIfDue (match st.alarm with | some t => t | none => 0) st acc
  | (t, req) :: rest, st, acc =>
    let due := fireIfDue t st acc
    let served := fetch t req due.1
    runTimed rest served.1 due.2

end Batcher

namespace RateLimiter

/-- Static constants of the RateLimiter class. -/
def milliseconds_per_request : Nat := 10

/-- Refill amount added by each alarm firing. -/
def milliseconds_for_updates : Nat := 1000

/-- Token capacity of the bucket. -/
def capacity : Nat := 100

/-- In-memory token count and the pending alarm slot of one RateLimiter
identity. -/
structure State where
  tokens : Nat
  alarm : Option Nat
  deriving Repr, DecidableEq

/-- Constructor state: the bucket starts at capacity with no alarm. -/
def initState : State := { tokens := capacity, alarm := none }

/-- RateLimiter.checkAndSetAlarm: if no alarm exists or the current one
is in the past, set a new one `milliseconds_for_updates *
milliseconds_per_request` from now. -/
def checkAndSetAlarm (now : Nat) (st : State) : State :=
  match st.alarm with
  | none =>
    { st with alarm := some (now + milliseconds_for_updates * milliseconds_per_request) }
  | some t =>
    if t ≤ now then
      { st with alarm := some (now + milliseconds_for_updates * milliseconds_per_request) }
    else st

/-- RateLimiter.getMillisecondsToNextRequest: ensure an alarm is set,
then consume one token and return 0 if any remains, otherwise return
`milliseconds_per_request` leaving the count unchanged. -/
def getMillisecondsToNextRequest (now : Nat) (st : State) : Nat × State :=
  let st := checkAndSetAlarm now st
  if st.tokens > 0 then (0, { st with tokens := st.tokens - 1 })
  else (milliseconds_per_request, st)

/-- JSON fields of the RateLimiter's fetch response: `allowed` is the
success body (with `tokens_remaining`), `limited` the 429 body (with
`retry_after_ms` and `refill_in_ms`). -/
inductive Resp where
  | allowed (tokensRemaining : Nat)
  | limited (retryAfterMs : Nat) (refillInMs : Option Nat)
  deriving Repr, DecidableEq

/-- HTTP status of a RateLimiter response. -/
def Resp.status : Resp → Nat
  | .allowed _ => 200
  | .limited _ _ => 429

/-- Whether a response is the success body. -/
def Resp.isAllowed : Resp → Bool
  | .allowed _ => true
  | .limited _ _ => false

/-- Milliseconds until refill as reported in the 429 body:
`nextRefillTime ? Math.max(0, nextRefillTime - now) : null`, where a
JavaScript alarm time of 0 is falsy. -/
def refillInMs (alarm : Option Nat) (now : Nat) : Option Nat :=
  match alarm with
  | some t => if t = 0 then none else some (t - now)
  | none => none

/-- RateLimiter.fetch: reject with 429 when the wait is positive,
otherwise answer success with the remaining tokens. -/
def fetch (now : Nat) (st : State) : State × Resp :=
  let r := getMillisecondsToNextRequest now st
  if r.1 > 0 then (r.2, .limited r.1 (refillInMs r.2.alarm now))
  else (r.2, .allowed r.2.tokens)

/-- RateLimiter.alarm: refill the bucket up to capacity, then re-arm the
alarm.  The scheduler has already cleared the slot before the callback
runs. -/
def alarmHandler (now : Nat) (st : State) : State :=
  checkAndSetAlarm now
    { st with tokens := min capacity (st.tokens + milliseconds_for_updates) }

/-- A unit of work admitted to the RateLimiter's gate. -/
inductive Op where
  | fetch (now : Nat)
  | fire (now : Nat)
  deriving Repr, DecidableEq

/-- One unit of work applied to the state; `fire` clears the alarm slot
before the callback runs. -/
def step (op : Op) (st : State) : State :=
  match op with
  | .fetch now => (fetch now st).1
  | .fire now => alarmHandler now { st with alarm := none }

/-- A serialized sequence of units of work for one RateLimiter
identity. -/
def run (ops : List Op) (st : State) : State :=
  ops.foldl (fun s o => step o s) st

/-- Sequential fetches at the given arrival times with no interleaved
alarm firing, returning the final state and the responses in order. -/
def runFetches : List Nat → State → State × List Resp
  | [], st => (st, [])
  | t :: rest, st =>
    let r := fetch t st
    let rec' := runFetches rest r.1
    (rec'.1, r.2 :: rec'.2)

end RateLimiter

namespace ChatRoom

/-- A chat message as stored in the durable "messages" list. -/
structure Message where
  id : String
  text : String
  timestamp : Nat
  username : String
  deriving Repr, DecidableEq

/-- ChatRoom.addMessage: append the message to the stored list and, when
the list then exceeds 100 entries, shift off the oldest. -/
def addMessage (message : Message) (messages : List Message) :
    List Message :=
  let m := messages ++ [message]
  if m.length > 100 then m.tail else m

/-- Stored message list after a sequence of addMessage calls starting
from an empty history. -/
def addAll (msgs : List Message) : List Message :=
  msgs.foldl (fun acc m => addMessage m acc) []

/-- ChatRoom.broadcast over the session set, whose members are visited
in insertion (join) order.  Sessions are identified by numbers; `fails`
says whose connection throws on send.  For each member other than
`exclude` the payload is sent; a failing member is removed from the set
and the loop continues.  Returns the surviving session set and the
successful deliveries `(session, payload)` in visit order. -/
def broadcast (fails : Nat → Bool) (payload : String)
    (exclude : Option Nat) : List Nat → List Nat × List (Nat × String)
  | [] => ([], [])
  | s :: rest =>
    let r := broadcast fails payload exclude rest
    if some s = exclude then (s :: r.1, r.2)
    else if fails s then (r.1, r.2)
    else (s :: r.1, (s, payload) :: r.2)

end ChatRoom

namespace Session

/-- Time To Live of a session in milliseconds (30 seconds). -/
def timeToLiveMs : Nat := 30 * 1000

/-- Durable store and pending alarm slot of one Session identity. -/
structure State where
  store : List (String × String)
  alarm : Option Nat
  deriving Repr, DecidableEq

/-- Routes of Session.fetch.  Response shaping (JSON bodies) is out of
scope of the runtime spec (section 1); the storage and alarm effects are
what is modelled. -/
inductive Req where
  | set (key value : String)
  | get (key : String)
  | all
  | other
  deriving Repr, DecidableEq

/-- Session.fetch: every request first resets the TTL alarm to
`now + timeToLiveMs`, then `/session/set` puts its key/value while the
read routes leave the store unchanged. -/
def fetch (now : Nat) (req : Req) (st : State) : State :=
  let st := { st with alarm := some (now + timeToLiveMs) }
  match req with
  | .set k v => { st with store := putEntry k v st.store }
  | .get _ => st
  | .all => st
  | .other => st

/-- Session.alarm: the TTL expired, deleteAll.  The scheduler has
already cleared the alarm slot before the callback runs. -/
def alarmHandler (st : State) : State :=
  { st with store := [] }

/-- A unit of work admitted to the Session's gate. -/
inductive Op where
  | fetch (now : Nat) (req : Req)
  | fire
  deriving Repr, DecidableEq

/-- One unit of work applied to the state; `fire` clears the alarm slot
before the callback runs. -/
def step (op : Op) (st : State) : State :=
  match op with
  | .fetch now req => fetch now req st
  | .fire => alarmHandler { st with alarm := none }

/-- A serialized sequence of units of work for one Session identity. -/
def run (ops : List Op) (st : State) : State :=
  ops.foldl (fun s o => step o s) st

end Session

/-! Theorems settling the claims. -/

/-- C6: `list` with `\x7breverse: true, limit: 1\x7d` on a namespace holding
exactly the keys "1", "2", "3" returns exactly the single pair
("3", value3); ascending lexicographic order is the default, `reverse`
flips it and `limit` truncates. -/
theorem list_reverse_limit_one_top_key :
    (∀ v1 v2 v3 : String,
      listStorage [("1", v1), ("2", v2), ("3", v3)] true (some 1) = [("3", v3)])
    ∧ (∀ e, listStorage e false none = sortEntries e)
    ∧ (∀ e, listStorage e true none = (sortEntries e).reverse)
    ∧ (∀ e n, listStorage e true (some n) = ((sortEntries e).reverse).take n) :=
  ⟨fun _ _ _ => rfl, fun _ => rfl, fun _ => rfl, fun _ _ => rfl⟩

/-- C5: rehydration through the Batcher's setup barrier reconstructs the
in-memory count from `list(reverse, limit 1)`: over a namespace holding
exactly the key "5" the count becomes 5, not 0, and over an empty
namespace it becomes 0. -/
theorem batcher_init_rehydrates_count :
    (∀ (v : String) (a : Option Nat),
      Batcher.init [("5", v)] a =
        some { count := 5, entries := [("5", v)], alarm := a })
    ∧ (∀ a : Option Nat,
      Batcher.init [] a = some { count := 0, entries := [], alarm := a }) :=
  ⟨fun _ _ => rfl, fun _ => rfl⟩

/-- C10: rehydration takes the lexicographically greatest key, not the
numerically greatest: over keys "9" and "10" the constructor sets the
count to 9 (because "9" sorts after "10"), and the next fetch increments
the count to 10 and its put overwrites the record already stored under
key "10" instead of appending a new one. -/
theorem batcher_rehydration_lexicographic :
    ∀ (v9 v10 body : String) (now : Nat),
      Batcher.init [("9", v9), ("10", v10)] none =
        some { count := 9, entries := [("9", v9), ("10", v10)], alarm := none }
      ∧ (Batcher.fetch now { body := body, debounce := false }
          { count := 9, entries := [("9", v9), ("10", v10)], alarm := none }).1 =
        { count := 10, entries := [("9", v9), ("10", body)],
          alarm := some (now + 1000 * Batcher.SECONDS) } := by
  intro v9 v10 body now
  constructor
  · rfl
  · simp +decide [Batcher.fetch, putEntry, Batcher.SECONDS,
      show toString (10 : Nat) = "10" from rfl]

/-- C3: under the batching policy (non-debounce requests), arrivals at
t = 0, 3s, 6s with the 10-second window produce exactly one alarm
firing, at t = 10s, whose handler processes all three stored items and
clears the batch; the later arrivals do not move the deadline. -/
theorem batcher_batching_one_firing_at_10s :
    ∀ b1 b2 b3 : String,
      Batcher.runTimed
          [(0, { body := b1, debounce := false }),
           (3000, { body := b2, debounce := false }),
           (6000, { body := b3, debounce := false })]
          { count := 0, entries := [], alarm := none } [] =
        ({ count := 0, entries := [], alarm := none },
         [(10000, [b1, b2, b3])]) := by
  intro b1 b2 b3
  simp +decide [Batcher.runTimed, Batcher.fireIfDue, Batcher.fetch,
    Batcher.alarmHandler, putEntry, listStorage, sortEntries, insertSorted,
    strLt, charListLt, Batcher.SECONDS,
    show toString (1 : Nat) = "1" from rfl, show toString (2 : Nat) = "2" from rfl,
    show toString (3 : Nat) = "3" from rfl]

/-- C4: under the debouncing policy (requests whose JSON body has
`debounce === true`), arrivals at t = 0, 3s, 6s with the 10-second quiet
period produce exactly one alarm firing, at t = 16s, because every
arrival unconditionally resets the alarm to now + 10s. -/
theorem batcher_debouncing_one_firing_at_16s :
    ∀ b1 b2 b3 : String,
      Batcher.runTimed
          [(0, { body := b1, debounce := true }),
           (3000, { body := b2, debounce := true }),
           (6000, { body := b3, debounce := true })]
          { count := 0, entries := [], alarm := none } [] =
        ({ count := 0, entries := [], alarm := none },
         [(16000, [b1, b2, b3])]) := by
  intro b1 b2 b3
  simp +decide [Batcher.runTimed, Batcher.fireIfDue, Batcher.fetch,
    Batcher.alarmHandler, putEntry, listStorage, sortEntries, insertSorted,
    strLt, charListLt, Batcher.SECONDS,
    show toString (1 : Nat) = "1" from rfl, show toString (2 : Nat) = "2" from rfl,
    show toString (3 : Nat) = "3" from rfl]

/-- C7: broadcast delivers the payload to every current session except
`exclude`; a failed delivery removes the failing member and neither
prevents delivery to the remaining members nor surfaces an error.  With
sessions \x7bA=0, B=1, C=2\x7d: excluding B delivers to A and C only, and a
failed delivery to C removes C while A is still served.  In general the
deliveries are exactly the non-excluded non-failing members in join
order and the surviving set keeps exactly the excluded or non-failing
members. -/
theorem chatroom_broadcast_excludes_and_isolates :
    (∀ msg : String,
      ChatRoom.broadcast (fun _ => false) msg (some 1) [0, 1, 2] =
        ([0, 1, 2], [(0, msg), (2, msg)]))
    ∧ (∀ msg : String,
      ChatRoom.broadcast (fun s => s == 2) msg (some 1) [0, 1, 2] =
        ([0, 1], [(0, msg)]))
    ∧ (∀ (fails : Nat → Bool) (msg : String) (ex : Option Nat) (ss : List Nat),
      (ChatRoom.broadcast fails msg ex ss).2 =
        (ss.filter (fun s => !(ex == some s) && !fails s)).map (fun s => (s, msg))
      ∧ (ChatRoom.broadcast fails msg ex ss).1 =
        ss.filter (fun s => (ex == some s) || !fails s)) := by
  refine ⟨fun _ => rfl, fun _ => rfl, fun fails msg ex ss => ?_⟩
  induction ss with
  | nil => exact ⟨rfl, rfl⟩
  | cons s rest ih =>
    simp only [ChatRoom.broadcast, List.filter]
    rcases hex : ex == some s with _ | _
    · have hne : ¬ (some s = ex) := by
        intro h
        rw [h] at hex
        simp at hex
      rcases hf : fails s with _ | _
      · simp [hne, hf, ih.1, ih.2]
      · simp [hne, hf, ih.1, ih.2]
    · have heq : some s = ex := by
        cases ex with
        | none => simp at hex
        | some t => simp at hex; simp [hex]
      simp [heq, ih.1, ih.2]


/-- C9: the durable chat history is a bounded most-recent-100 log: after
any sequence of addMessage calls starting from an empty history, the
stored list holds at most 100 messages and equals the suffix of most
recent messages (exceeding the bound discards the oldest). -/
theorem chat_history_bounded_most_recent :
    ∀ msgs : List ChatRoom.Message,
      (ChatRoom.addAll msgs).length ≤ 100
      ∧ ChatRoom.addAll msgs = msgs.drop (msgs.length - 100) := by
  intro msgs
  induction msgs using List.reverseRecOn with
  | nil => exact ⟨by simp [ChatRoom.addAll], by simp [ChatRoom.addAll]⟩
  | append_singleton l m ih =>
    have hfold : ChatRoom.addAll (l ++ [m]) =
        ChatRoom.addMessage m (ChatRoom.addAll l) := by
      simp [ChatRoom.addAll, List.foldl_append]
    have hlen : (ChatRoom.addAll l).length = l.length - (l.length - 100) := by
      rw [ih.2, List.length_drop]
    by_cases h : l.length < 100
    · have hnoshift : ChatRoom.addMessage m (ChatRoom.addAll l) =
          ChatRoom.addAll l ++ [m] := by
        unfold ChatRoom.addMessage
        simp only [if_neg (by simp; omega : ¬ (ChatRoom.addAll l ++ [m]).length > 100)]
      have h1 : l.length - 100 = 0 := by omega
      have h2 : (l ++ [m]).length - 100 = 0 := by simp; omega
      refine ⟨?_, ?_⟩
      · rw [hfold, hnoshift]
        simp
        omega
      · rw [hfold, hnoshift, ih.2, h1, List.drop_zero, h2, List.drop_zero]
    · push_neg at h
      have hlen100 : (ChatRoom.addAll l).length = 100 := by omega
      have hgt : (ChatRoom.addAll l ++ [m]).length > 100 := by simp [hlen100]
      have hstep : ChatRoom.addMessage m (ChatRoom.addAll l) =
          (ChatRoom.addAll l ++ [m]).tail := by
        unfold ChatRoom.addMessage
        simp only [if_pos hgt]
      have hne : ChatRoom.addAll l ≠ [] := by
        intro hnil
        rw [hnil] at hlen100
        simp at hlen100
      have htail : (ChatRoom.addAll l ++ [m]).tail =
          (ChatRoom.addAll l).tail ++ [m] := by
        cases hc : ChatRoom.addAll l with
        | nil => exact absurd hc hne
        | cons a as => simp
      have htail2 : (ChatRoom.addAll l).tail = l.drop (l.length - 100 + 1) := by
        rw [ih.2, ← List.drop_one, List.drop_drop]
      have hlen99 : (l.drop (l.length - 100 + 1)).length = 99 := by
        rw [List.length_drop]
        omega
      have hd : (l ++ [m]).length - 100 = l.length - 100 + 1 := by simp; omega
      refine ⟨?_, ?_⟩
      · rw [hfold, hstep, htail, htail2]
        simp [hlen99]
      · rw [hfold, hstep, htail, htail2, hd,
          List.drop_append_of_le_length (by omega : l.length - 100 + 1 ≤ l.length)]

/-- Tokens are unchanged by checkAndSetAlarm, which only touches the
alarm slot. -/
theorem RateLimiter.checkAndSetAlarm_tokens (now : Nat) (st : State) :
    (checkAndSetAlarm now st).tokens = st.tokens := by
  unfold checkAndSetAlarm
  cases st.alarm with
  | none => rfl
  | some t => by_cases h : t ≤ now <;> simp [h]

/-- With a positive token count, fetch consumes one token and answers
with the success body. -/
theorem RateLimiter.fetch_pos (now : Nat) (st : State) (h : 0 < st.tokens) :
    fetch now st =
      ({ tokens := st.tokens - 1, alarm := (checkAndSetAlarm now st).alarm },
       .allowed (st.tokens - 1)) := by
  unfold fetch getMillisecondsToNextRequest
  have ht : (checkAndSetAlarm now st).tokens = st.tokens :=
    checkAndSetAlarm_tokens now st
  simp only [ht, h, if_pos]
  simp [gt_iff_lt, h]

/-- With an empty bucket, fetch leaves the count at zero and answers
with the 429 body carrying `retry_after_ms = milliseconds_per_request`. -/
theorem RateLimiter.fetch_zero (now : Nat) (st : State) (h : st.tokens = 0) :
    fetch now st =
      ({ tokens := 0, alarm := (checkAndSetAlarm now st).alarm },
       .limited milliseconds_per_request
         (refillInMs (checkAndSetAlarm now st).alarm now)) := by
  unfold fetch getMillisecondsToNextRequest
  have ht : (checkAndSetAlarm now st).tokens = st.tokens :=
    checkAndSetAlarm_tokens now st
  have hc : ({ tokens := 0, alarm := (checkAndSetAlarm now st).alarm } : State) =
      checkAndSetAlarm now st := by
    rw [← h, ← ht]
  simp [ht, h, milliseconds_per_request, hc]

/-- Unfolding lemma for runFetches on a cons cell. -/
theorem RateLimiter.runFetches_cons (t : Nat) (rest : List Nat) (st : State) :
    runFetches (t :: rest) st =
      ((runFetches rest (fetch t st).1).1,
       (fetch t st).2 :: (runFetches rest (fetch t st).1).2) := rfl

/-- While requests do not outnumber the tokens, every fetch is allowed
and the responses count the bucket down. -/
theorem RateLimiter.runFetches_allowed (ts : List Nat) :
    ∀ st : State, ts.length ≤ st.tokens →
      (runFetches ts st).1.tokens = st.tokens - ts.length
      ∧ (runFetches ts st).2 =
          (List.range ts.length).map (fun i => Resp.allowed (st.tokens - 1 - i)) := by
  induction ts with
  | nil => intro st _; exact ⟨rfl, rfl⟩
  | cons t rest ih =>
    intro st h
    have hpos : 0 < st.tokens := by
      simp only [List.length_cons] at h
      omega
    have hlen : rest.length ≤ st.tokens - 1 := by
      simp only [List.length_cons] at h
      omega
    have ihr := ih { tokens := st.tokens - 1, alarm := (checkAndSetAlarm t st).alarm } hlen
    have ihr1 : (runFetches rest
        { tokens := st.tokens - 1, alarm := (checkAndSetAlarm t st).alarm }).1.tokens =
        st.tokens - 1 - rest.length := by
      simpa using ihr.1
    have ihr2 : (runFetches rest
        { tokens := st.tokens - 1, alarm := (checkAndSetAlarm t st).alarm }).2 =
        (List.range rest.length).map (fun i => Resp.allowed (st.tokens - 1 - 1 - i)) := by
      simpa using ihr.2
    rw [runFetches_cons, fetch_pos t st hpos]
    constructor
    · simp only []
      rw [ihr1]
      simp only [List.length_cons]
      omega
    · simp only []
      rw [ihr2]
      simp only [List.length_cons, List.range_succ_eq_map, List.map_cons, List.map_map]
      simp [List.map_eq_map_iff]
      intro a ha
      omega

/-- runFetches distributes over list append. -/
theorem RateLimiter.runFetches_append (as bs : List Nat) (st : State) :
    runFetches (as ++ bs) st =
      ((runFetches bs (runFetches as st).1).1,
       (runFetches as st).2 ++ (runFetches bs (runFetches as st).1).2) := by
  induction as generalizing st with
  | nil => simp [runFetches]
  | cons a rest ih =>
    rw [List.cons_append, runFetches_cons, runFetches_cons, ih]
    simp

/-- C8: from the initial capacity of 100 tokens, with no alarm firing
between requests, the first 100 requests each succeed (wait 0, success
body counting the bucket down) and the 101st is rejected with status 429
while the token count stays at 0. -/
theorem rate_limiter_first_100_allowed_then_429 :
    ∀ ts : List Nat, ts.length = 101 →
      ∃ refill : Option Nat,
        (RateLimiter.runFetches ts RateLimiter.initState).2 =
          (List.range 100).map (fun i => RateLimiter.Resp.allowed (99 - i))
            ++ [RateLimiter.Resp.limited RateLimiter.milliseconds_per_request refill]
        ∧ (RateLimiter.runFetches ts RateLimiter.initState).1.tokens = 0
        ∧ RateLimiter.Resp.status
            (RateLimiter.Resp.limited RateLimiter.milliseconds_per_request refill) = 429 := by
  intro ts h
  obtain ⟨t, hdrop⟩ : ∃ t, ts.drop 100 = [t] := by
    apply List.length_eq_one.mp
    rw [List.length_drop]
    omega
  have hsplit : ts = ts.take 100 ++ [t] := by
    rw [← hdrop, List.take_append_drop]
  have hlen : (ts.take 100).length = 100 := by
    rw [List.length_take]
    omega
  have htoks : RateLimiter.initState.tokens = 100 := rfl
  have h1 := RateLimiter.runFetches_allowed (ts.take 100) RateLimiter.initState
    (by rw [hlen, htoks])
  have htok0 : (RateLimiter.runFetches (ts.take 100) RateLimiter.initState).1.tokens = 0 := by
    rw [h1.1, hlen, htoks]
  set st0 := (RateLimiter.runFetches (ts.take 100) RateLimiter.initState).1 with hst0
  refine ⟨RateLimiter.refillInMs (RateLimiter.checkAndSetAlarm t st0).alarm t, ?_, ?_, rfl⟩
  · rw [hsplit, RateLimiter.runFetches_append]
    rw [RateLimiter.runFetches_cons, RateLimiter.fetch_zero t st0 htok0]
    simp only [RateLimiter.runFetches]
    rw [h1.2, hlen]
    simp [htoks, RateLimiter.initState, RateLimiter.capacity]
  · rw [hsplit, RateLimiter.runFetches_append]
    rw [RateLimiter.runFetches_cons, RateLimiter.fetch_zero t st0 htok0]
    simp [RateLimiter.runFetches]

/-- Witness for C8 at the concrete input of 101 requests all arriving at
time 0. -/
theorem rate_limiter_first_100_allowed_then_429_witness :
    ∃ refill : Option Nat,
      (RateLimiter.runFetches (List.replicate 101 0) RateLimiter.initState).2 =
        (List.range 100).map (fun i => RateLimiter.Resp.allowed (99 - i))
          ++ [RateLimiter.Resp.limited RateLimiter.milliseconds_per_request refill]
      ∧ (RateLimiter.runFetches (List.replicate 101 0) RateLimiter.initState).1.tokens = 0
      ∧ RateLimiter.Resp.status
          (RateLimiter.Resp.limited RateLimiter.milliseconds_per_request refill) = 429 :=
  rate_limiter_first_100_allowed_then_429 (List.replicate 101 0) (by simp)

/-- The single-slot alarm model never holds more than one pending alarm. -/
theorem alarmCount_le_one (o : Option Nat) : alarmCount o ≤ 1 := by
  cases o <;> simp [alarmCount]

/-- C1: for every identity at most one alarm is pending at any time.
Across every serialized sequence of fetch and alarm units of work of the
Batcher, Session, and RateLimiter handlers the pending-alarm count stays
at most 1, and every setAlarm call made while an alarm is pending
replaces it with the new due time (Batcher debounce fetch and Session
fetch set unconditionally; Batcher batching fetch keeps the pending one;
RateLimiter replaces only a stale one), never adding a second. -/
theorem alarm_slot_at_most_one :
    (∀ (ops : List Batcher.Op) (st : Batcher.State),
      alarmCount (Batcher.run ops st).alarm ≤ 1)
    ∧ (∀ (ops : List Session.Op) (st : Session.State),
      alarmCount (Session.run ops st).alarm ≤ 1)
    ∧ (∀ (ops : List RateLimiter.Op) (st : RateLimiter.State),
      alarmCount (RateLimiter.run ops st).alarm ≤ 1)
    ∧ (∀ (now : Nat) (req : Batcher.Request) (st : Batcher.State) (t : Nat),
      st.alarm = some t →
        (Batcher.fetch now req st).1.alarm =
          some (if req.debounce then now + 1000 * Batcher.SECONDS else t))
    ∧ (∀ (now : Nat) (req : Session.Req) (st : Session.State) (t : Nat),
      st.alarm = some t →
        (Session.fetch now req st).alarm = some (now + Session.timeToLiveMs))
    ∧ (∀ (now : Nat) (st : RateLimiter.State) (t : Nat),
      st.alarm = some t →
        (RateLimiter.checkAndSetAlarm now st).alarm =
          some (if t ≤ now
            then now + RateLimiter.milliseconds_for_updates *
              RateLimiter.milliseconds_per_request
            else t)) := by
  refine ⟨fun ops st => alarmCount_le_one _,
          fun ops st => alarmCount_le_one _,
          fun ops st => alarmCount_le_one _,
          ?_, ?_, ?_⟩
  · intro now req st t h
    unfold Batcher.fetch
    cases hd : req.debounce with
    | true => simp [hd]
    | false => simp [hd, h]
  · intro now req st t h
    cases req <;> rfl
  · intro now st t h
    unfold RateLimiter.checkAndSetAlarm
    rw [h]
    by_cases hle : t ≤ now <;> simp [hle, h]

/-- Witness for C1 at concrete states holding a pending alarm at time 3:
a Batcher debounce fetch at time 5, a Session request at time 7, and a
RateLimiter alarm check at time 9 each replace it. -/
theorem alarm_slot_at_most_one_witness :
    (Batcher.fetch 5 { body := "x", debounce := true }
        { count := 0, entries := [], alarm := some 3 }).1.alarm =
      some (5 + 1000 * Batcher.SECONDS)
    ∧ (Session.fetch 7 Session.Req.all { store := [], alarm := some 3 }).alarm =
      some (7 + Session.timeToLiveMs)
    ∧ (RateLimiter.checkAndSetAlarm 9 { tokens := 0, alarm := some 3 }).alarm =
      some (9 + RateLimiter.milliseconds_for_updates *
        RateLimiter.milliseconds_per_request) :=
  ⟨alarm_slot_at_most_one.2.2.2.1 5 { body := "x", debounce := true }
      { count := 0, entries := [], alarm := some 3 } 3 rfl,
   alarm_slot_at_most_one.2.2.2.2.1 7 Session.Req.all
      { store := [], alarm := some 3 } 3 rfl,
   alarm_slot_at_most_one.2.2.2.2.2 9 { tokens := 0, alarm := some 3 } 3 rfl⟩
